import Mathlib

/-!
# Verification of the configuration-driven pricing calculator

Shallow embedding of `src/components/Calculator.tsx` (the current variant)
and of the older variant of the same component (`src/unnamed/part_000`).

Modelling conventions:
* JavaScript numbers that can arise here are integers or `NaN`; we model a
  JS number as `Option Int` (`none` = `NaN`).  `Number(s)` on a string is
  modelled by `jsNumber`, an integer-literal parser: the empty string parses
  to `0`, an optional sign followed by decimal digits parses to the obvious
  integer, and anything else yields `none` (`NaN`).
* JS `Record<string, α>` objects are modelled as association lists
  `List (String × α)`; `lookup` returns the value at a key (`none` =
  `undefined`) and `setKey` models the spread update `{...s, [k]: v}`
  (replace in place when the key is present, append otherwise).
* Field variants (`"Drop Down" | "Toggle" | "Checkbox" | "Line"`) become the
  inductive `FieldType`.
* An absent `alias` interpolated into a template literal renders as the
  string `"undefined"`, which `flagKey` reproduces.
-/

namespace Ccb

/-- A JS number: `none` is `NaN`, `some n` an integer value. -/
abbrev JSNum := Option Int

/-- JS `x || 0` on a number: `NaN` and `0` are falsy, so both give `0`. -/
def jsOr0 : JSNum → Int
  | none => 0
  | some n => n

/-- JS `+` on numbers: `NaN` absorbs. -/
def jsAdd : JSNum → JSNum → JSNum
  | some a, some b => some (a + b)
  | _, _ => none

/-- JS `v > 0` on a number: false for `NaN`. -/
def jsGtZero : JSNum → Bool
  | none => false
  | some n => 0 < n

/-- Fold decimal digits into a `Nat`; fails on any non-digit. -/
def parseDigits (cs : List Char) : Option Nat :=
  cs.foldl
    (fun acc c =>
      match acc with
      | none => none
      | some n => if c.isDigit then some (n * 10 + (c.toNat - 48)) else none)
    (some 0)

/-- Model of JS `Number(s)` on the strings this program feeds it: `""` is `0`,
an optional sign followed by digits is that integer, anything else is `NaN`. -/
def jsNumber (s : String) : Option Int :=
  match s.toList with
  | [] => some 0
  | '-' :: rest =>
    if rest.isEmpty then none else (parseDigits rest).map (fun n => -(n : Int))
  | '+' :: rest =>
    if rest.isEmpty then none else (parseDigits rest).map (fun n => (n : Int))
  | cs => (parseDigits cs).map (fun n => (n : Int))

/-- JS `Number(v || 0)` where `v` is an optional string: an absent or empty
string is replaced by `0` before parsing; the result may be `NaN`. -/
def numOr0 : Option String → JSNum
  | none => some 0
  | some s => if s = "" then some 0 else jsNumber s

/-- Model of `toNum` (Calculator.tsx line 28): `Number(v || 0) || 0` — parse, and turn
a `NaN` result back into `0`. Every call site passes a string (or nothing),
so the `typeof v === "number"` branch never fires and is not modelled. -/
def toNum (v : Option String) : Int :=
  jsOr0 (numOr0 v)

/-- One selectable choice (`Option` in the source; renamed to avoid the
core `Option` type). -/
structure CalcOption where
  optionText : String
  optionValue : String
  optionHint : Option String := none
  deriving Repr, DecidableEq

/-- The field variant union `"Drop Down" | "Toggle" | "Checkbox" | "Line"`. -/
inductive FieldType where
  | dropDown
  | toggle
  | checkbox
  | line
  deriving Repr, DecidableEq, BEq

/-- A schema field (`Field` in the source). -/
structure Field where
  _id : Int
  type : FieldType
  label : String
  description : Option String := none
  alias_ : Option String := none
  options : Option (List CalcOption) := none
  deriving Repr, DecidableEq

/-- Model of `CalculatorData`; `ccb_fields` is optional because the JSON cast is
unchecked and the component guards on `!calculator.ccb_fields` at runtime. -/
structure CalculatorData where
  ccb_name : String
  ccb_fields : Option (List Field)
  deriving Repr, DecidableEq

/-- Model of `CcbRoot`: the root of the configuration document. -/
structure CcbRoot where
  calculators : Option (List CalculatorData)
  deriving Repr, DecidableEq

/-- Model of `ccbRoot.calculators?.[0] ?? null` (Calculator.tsx line 25). -/
def loadCalculator (root : CcbRoot) : Option CalculatorData :=
  root.calculators.bind List.head?

/-- The field list the component iterates: `calculator?.ccb_fields?.forEach`
iterates nothing when the calculator or its field list is absent. -/
def fieldsOf (cal : Option CalculatorData) : List Field :=
  (cal.bind (fun c => c.ccb_fields)).getD []

/-- First-match lookup in a JS-object-as-association-list
(`undefined` = `none`). -/
def lookup {α : Type} : List (String × α) → String → Option α
  | [], _ => none
  | p :: rest, k => if p.1 = k then some p.2 else lookup rest k

/-- The spread update `{...s, [k]: v}`: replace the entry in place when the
key is present, append it otherwise. -/
def setKey {α : Type} (r : List (String × α)) (k : String) (v : α) :
    List (String × α) :=
  if r.any (fun p => p.1 = k) then
    r.map (fun p => if p.1 = k then (k, v) else p)
  else r ++ [(k, v)]

/-- Model of `checked[key]` coerced to a boolean: `undefined` is falsy. -/
def getFlag (checked : List (String × Bool)) (k : String) : Bool :=
  (lookup checked k).getD false

/-- The template literal `` `${f.alias}:${o.optionText}` `` keying the
checkbox state; an absent alias interpolates as `"undefined"`. -/
def flagKey (a : Option String) (t : String) : String :=
  (match a with
   | some x => x
   | none => "undefined") ++ ":" ++ t

/-- Model of `f.alias || "drop_" + f._id` — the dropdown lookup key. -/
def dropAlias (f : Field) : String :=
  match f.alias_ with
  | some x => if x = "" then "drop_" ++ toString f._id else x
  | none => "drop_" ++ toString f._id

/-- The component's selection state: the three `useState` records. -/
structure SelState where
  dropdownValues : List (String × JSNum)
  dropdownLabels : List (String × String)
  checked : List (String × Bool)
  deriving Repr, DecidableEq

/-- The running total (Calculator.tsx lines 51–65): sum `v || 0` over the
dropdown record's values, then for every Toggle/Checkbox field and option
whose flag is set add `toNum(optionValue)`. -/
def total (cal : Option CalculatorData) (s : SelState) : Int :=
  let sum1 := s.dropdownValues.foldl (fun sum p => sum + jsOr0 p.2) 0
  (fieldsOf cal).foldl
    (fun sum f =>
      if (f.type == FieldType.toggle || f.type == FieldType.checkbox)
          && f.options.isSome then
        (f.options.getD []).foldl
          (fun acc o =>
            if getFlag s.checked (flagKey f.alias_ o.optionText) then
              acc + toNum (some o.optionValue)
            else acc)
          sum
      else sum)
    sum1

/-- The older variant's total (part_000 lines 26–38): identical except that a
set flag adds `Number(optionValue || 0)` — without the trailing `|| 0` — so a
flagged option whose value fails to parse turns the whole sum into `NaN`. -/
def totalOld (cal : Option CalculatorData) (s : SelState) : JSNum :=
  let sum1 : JSNum :=
    some (s.dropdownValues.foldl (fun sum p => sum + jsOr0 p.2) 0)
  (fieldsOf cal).foldl
    (fun sum f =>
      if (f.type == FieldType.toggle || f.type == FieldType.checkbox)
          && f.options.isSome then
        (f.options.getD []).foldl
          (fun acc o =>
            if getFlag s.checked (flagKey f.alias_ o.optionText) then
              jsAdd acc (numOr0 (some o.optionValue))
            else acc)
          sum
      else sum)
    sum1

/-- One exported line item. -/
structure Row where
  section_ : String
  item : String
  price : Int
  deriving Repr, DecidableEq

/-- Truthiness of `dropdownValues[alias]`: `undefined`, `NaN` and `0` are
falsy. -/
def truthyNum : Option JSNum → Bool
  | some (some n) => n ≠ 0
  | _ => false

/-- Truthiness of `dropdownLabels[alias]`: `undefined` and `""` are falsy. -/
def truthyStr : Option String → Bool
  | some l => l ≠ ""
  | none => false

/-- Extract the number a truthy `dropdownValues[alias]` holds. -/
def forceNum (v : Option JSNum) : Int :=
  jsOr0 (v.getD none)

/-- The dropdown-pass body of `buildSelections` for one field: push
`{section: f.label, item: label, price: value}` when `value && label`. -/
def dropContrib (f : Field) (s : SelState) : List Row :=
  if f.type == FieldType.dropDown then
    let value := lookup s.dropdownValues (dropAlias f)
    let label := lookup s.dropdownLabels (dropAlias f)
    if truthyNum value && truthyStr label then
      [⟨f.label, (label.getD ""), forceNum value⟩]
    else []
  else []

/-- The checkbox-pass body of `buildSelections` for one field: one row per
option whose flag is set. -/
def toggleContrib (f : Field) (checked : List (String × Bool)) : List Row :=
  if (f.type == FieldType.toggle || f.type == FieldType.checkbox)
      && f.options.isSome then
    (f.options.getD []).foldl
      (fun rs o =>
        if getFlag checked (flagKey f.alias_ o.optionText) then
          rs ++ [⟨f.label, o.optionText, toNum (some o.optionValue)⟩]
        else rs)
      []
  else []

/-- Model of `buildSelections` (Calculator.tsx lines 68–104): the dropdown pass over
the fields, then the Toggle/Checkbox pass, pushing into one array. -/
def buildSelections (cal : Option CalculatorData) (s : SelState) : List Row :=
  let rows1 :=
    (fieldsOf cal).foldl (fun rows f => rows ++ dropContrib f s) []
  (fieldsOf cal).foldl
    (fun rows f =>
      if (f.type == FieldType.toggle || f.type == FieldType.checkbox)
          && f.options.isSome then
        (f.options.getD []).foldl
          (fun rs o =>
            if getFlag s.checked (flagKey f.alias_ o.optionText) then
              rs ++ [⟨f.label, o.optionText, toNum (some o.optionValue)⟩]
            else rs)
          rows
      else rows)
    rows1

/-- Outcome of pressing the export button: either the blocking alert, or a
saved document (filename, rows, total printed in the footer). -/
inductive ExportOutcome where
  | rejected (notice : String)
  | saved (filename : String) (rows : List Row) (totalShown : Int)
  deriving Repr, DecidableEq

/-- Whether the outcome is the blocking alert. -/
def ExportOutcome.isRejected : ExportOutcome → Bool
  | .rejected _ => true
  | .saved _ _ _ => false

/-- The file the outcome produced, if any. -/
def ExportOutcome.savedFile : ExportOutcome → Option String
  | .rejected _ => none
  | .saved fn _ _ => some fn

/-- Model of `handleDownloadPdf` (Calculator.tsx lines 107–209): build the rows, then
the guard `rows.length > 0 || Object.values(dropdownValues).some(v => v > 0)`;
on failure alert and return, otherwise lay out and save the document.  The
timestamp is a parameter (the source reads the clock). -/
def handleDownloadPdf (cal : Option CalculatorData) (s : SelState)
    (safeDate : String) : ExportOutcome :=
  let rows := buildSelections cal s
  let somethingSelected :=
    decide (0 < rows.length)
      || s.dropdownValues.any (fun p => jsGtZero p.2)
  if !somethingSelected then
    .rejected "Please make some selections before submitting."
  else
    .saved ("JO-NA_Quote_" ++ safeDate ++ ".pdf") rows (total cal s)

/-- Model of `handleDownloadPdf` with the state threaded through: the source handler
calls no state setter, so the state component is returned unchanged. -/
def handleDownloadPdfSt (cal : Option CalculatorData) (s : SelState)
    (safeDate : String) : ExportOutcome × SelState :=
  (handleDownloadPdf cal s safeDate, s)

/-- The label stored by the dropdown `onChange` handler:
`f.options?.find(o => String(o.optionValue) === e.target.value)?.optionText
|| ""`. -/
def labelFor (f : Field) (raw : String) : String :=
  match (f.options.getD []).find? (fun o => o.optionValue == raw) with
  | some o => if o.optionText = "" then "" else o.optionText
  | none => ""

/-- The dropdown `onChange` handler (Calculator.tsx lines 249–257): store
`Number(e.target.value || 0)` and the matching option's text under the
field's alias. -/
def selectDropdown (f : Field) (raw : String) (s : SelState) : SelState :=
  let val : JSNum := numOr0 (some raw)
  let text := labelFor f raw
  { s with
    dropdownValues := setKey s.dropdownValues (dropAlias f) val
    dropdownLabels := setKey s.dropdownLabels (dropAlias f) text }

/-- The checkbox `onChange` handler (Calculator.tsx lines 287–292): store the
control's new checked state under `` `${alias}:${optionText}` ``. -/
def setFlag (a : Option String) (t : String) (b : Bool) (s : SelState) :
    SelState :=
  { s with checked := setKey s.checked (flagKey a t) b }

/-- One rendered control of the form view. -/
inductive Control where
  | divider
  | dropdown (label : String) (opts : List CalcOption)
  | checkboxGroup (label : String) (opts : List CalcOption)
  deriving Repr, DecidableEq

/-- Render one field to its control. -/
def renderField (f : Field) : Control :=
  match f.type with
  | .line => .divider
  | .dropDown => .dropdown f.label (f.options.getD [])
  | .toggle => .checkboxGroup f.label (f.options.getD [])
  | .checkbox => .checkboxGroup f.label (f.options.getD [])

/-- What the component returns: the degraded "No calculator found" page, or
the interactive form (whose footer holds the export button). -/
inductive View where
  | noCalculator
  | form (name : String) (controls : List Control) (hasExportButton : Bool)
  deriving Repr, DecidableEq

/-- The component's top-level render (Calculator.tsx lines 211–328): the
guard `!calculator || !calculator.ccb_fields` yields the degraded page;
otherwise one control per field plus the export button. -/
def render (cal : Option CalculatorData) : View :=
  match cal with
  | none => .noCalculator
  | some c =>
    match c.ccb_fields with
    | none => .noCalculator
    | some fs => .form c.ccb_name (fs.map renderField) true

/-- The interactive (non-divider) controls a view offers. -/
def View.interactiveControls : View → List Control
  | .noCalculator => []
  | .form _ cs _ => cs.filter (fun c => c != Control.divider)

/-- Whether the view offers the export action. -/
def View.canExport : View → Bool
  | .noCalculator => false
  | .form _ _ b => b

/-- The effective load of §4.1: the catenation of line 25
(`calculators?.[0] ?? null`) with the line-211 guard — a calculator whose
`ccb_fields` is absent is treated exactly like an absent calculator. -/
def load (root : CcbRoot) : Option CalculatorData :=
  match loadCalculator root with
  | none => none
  | some c => if c.ccb_fields.isSome then some c else none

/-! ## Spec-side formulations (written from the claims' wording) -/

/-- Claim side: the sum of all values in the `chosenValue` mapping. -/
def specDropdownSum (dv : List (String × JSNum)) : Int :=
  (dv.map (fun p => jsOr0 p.2)).sum

/-- Whether a field is of variant Toggle or Checkbox. -/
def isFlagField (f : Field) : Bool :=
  f.type == FieldType.toggle || f.type == FieldType.checkbox

/-- Claim side: the parsed amounts of one field's options whose flags are
set. -/
def specFieldFlagSum (checked : List (String × Bool)) (f : Field) : Int :=
  ((f.options.getD []).map
    (fun o =>
      if getFlag checked (flagKey f.alias_ o.optionText) then
        toNum (some o.optionValue)
      else 0)).sum

/-- Claim side: for every Toggle/Checkbox field and every option whose flag
is set, the parsed amount of that option's `optionValue`. -/
def specFlagSum (fields : List Field) (checked : List (String × Bool)) :
    Int :=
  (fields.map (fun f => if isFlagField f then specFieldFlagSum checked f else 0)).sum

/-! ## Fold lemmas -/

theorem foldl_add_map_sum {α : Type} (l : List α) (g : α → Int) (a : Int) :
    l.foldl (fun s x => s + g x) a = a + (l.map g).sum := by
  induction l generalizing a with
  | nil => simp
  | cons x xs ih => simp [List.foldl, ih, add_assoc]

theorem foldl_if_add_map_sum {α : Type} (l : List α) (c : α → Bool)
    (g : α → Int) (a : Int) :
    l.foldl (fun s x => if c x then s + g x else s) a
      = a + (l.map (fun x => if c x then g x else 0)).sum := by
  induction l generalizing a with
  | nil => simp
  | cons x xs ih =>
    by_cases hc : c x <;> simp [List.foldl, hc, ih, add_assoc]

theorem total_outer_foldl (checked : List (String × Bool))
    (fields : List Field) (a : Int) :
    fields.foldl
      (fun sum f =>
        if (f.type == FieldType.toggle || f.type == FieldType.checkbox)
            && f.options.isSome then
          (f.options.getD []).foldl
            (fun acc o =>
              if getFlag checked (flagKey f.alias_ o.optionText) then
                acc + toNum (some o.optionValue)
              else acc)
            sum
        else sum)
      a
      = a + specFlagSum fields checked := by
  induction fields generalizing a with
  | nil => simp [specFlagSum]
  | cons f fs ih =>
    simp only [List.foldl]
    by_cases hc :
        ((f.type == FieldType.toggle || f.type == FieldType.checkbox)
          && f.options.isSome) = true
    · have hflag : isFlagField f = true := by
        have := (Bool.and_eq_true _ _).mp hc
        simpa [isFlagField] using this.1
      rw [if_pos hc, foldl_if_add_map_sum, ih]
      simp [specFlagSum, specFieldFlagSum, hflag, add_assoc]
    · rw [if_neg hc, ih]
      have hz : (if isFlagField f then specFieldFlagSum checked f else 0) = 0 := by
        rcases Bool.and_eq_false_iff.mp (Bool.eq_false_iff.mpr hc) with h | h
        · simp [isFlagField, Bool.or_eq_true] at h
          simp [isFlagField, h]
        · have : f.options = none := by
            cases hopt : f.options <;> simp [hopt] at h ⊢
          by_cases hf : isFlagField f = true <;>
            simp [hf, specFieldFlagSum, this]
      simp [specFlagSum, hz]

theorem total_eq_spec (cal : Option CalculatorData) (s : SelState) :
    total cal s
      = specDropdownSum s.dropdownValues
        + specFlagSum (fieldsOf cal) s.checked := by
  show
    (fieldsOf cal).foldl _
      (s.dropdownValues.foldl (fun sum p => sum + jsOr0 p.2) 0) = _
  rw [total_outer_foldl, foldl_add_map_sum]
  simp [specDropdownSum]

theorem foldl_append_eq_flatMap {α β : Type} (l : List α) (g : α → List β)
    (a : List β) :
    l.foldl (fun rows x => rows ++ g x) a = a ++ l.flatMap g := by
  induction l generalizing a with
  | nil => simp
  | cons x xs ih => simp [List.foldl, ih]

theorem foldl_if_append_eq_flatMap {α β : Type} (l : List α) (c : α → Bool)
    (g : α → β) (a : List β) :
    l.foldl (fun rs x => if c x then rs ++ [g x] else rs) a
      = a ++ l.flatMap (fun x => if c x then [g x] else []) := by
  induction l generalizing a with
  | nil => simp
  | cons x xs ih =>
    by_cases hc : c x <;> simp [List.foldl, hc, ih]

theorem foldl_congr_fun {α β : Type} (l : List β) (f g : α → β → α) (a : α)
    (h : ∀ x y, f x y = g x y) : l.foldl f a = l.foldl g a := by
  induction l generalizing a with
  | nil => rfl
  | cons x xs ih => simp only [List.foldl, h, ih]

theorem buildSelections_eq_flatMap (cal : Option CalculatorData)
    (s : SelState) :
    buildSelections cal s
      = (fieldsOf cal).flatMap (fun f => dropContrib f s)
        ++ (fieldsOf cal).flatMap (fun f => toggleContrib f s.checked) := by
  unfold buildSelections
  rw [foldl_append_eq_flatMap]
  rw [foldl_congr_fun (fieldsOf cal) _
    (fun rows f => rows ++ toggleContrib f s.checked) _ ?_]
  · rw [foldl_append_eq_flatMap]
    simp
  · intro rows f
    show
      (if (f.type == FieldType.toggle || f.type == FieldType.checkbox)
          && f.options.isSome then
        (f.options.getD []).foldl
          (fun rs o =>
            if getFlag s.checked (flagKey f.alias_ o.optionText) then
              rs ++ [⟨f.label, o.optionText, toNum (some o.optionValue)⟩]
            else rs)
          rows
      else rows)
        = rows ++ toggleContrib f s.checked
    unfold toggleContrib
    by_cases hc :
        ((f.type == FieldType.toggle || f.type == FieldType.checkbox)
          && f.options.isSome) = true
    · rw [if_pos hc, if_pos hc, foldl_if_append_eq_flatMap,
        foldl_if_append_eq_flatMap]
      simp
    · rw [if_neg hc, if_neg hc]
      simp

theorem lookup_append_single_ne {α : Type} (r : List (String × α))
    (k k' : String) (v : α) (h : ¬ k = k') :
    lookup (r ++ [(k, v)]) k' = lookup r k' := by
  induction r with
  | nil => simp [lookup, h]
  | cons p rest ih => by_cases hp : p.1 = k' <;> simp [lookup, hp, ih]

theorem lookup_map_replace_self {α : Type} (r : List (String × α))
    (k : String) (v : α) (h : r.any (fun p => p.1 = k) = true) :
    lookup (r.map (fun p => if p.1 = k then (k, v) else p)) k = some v := by
  induction r with
  | nil => simp at h
  | cons p rest ih =>
    by_cases hp : p.1 = k
    · simp [lookup, hp]
    · have h' : rest.any (fun p => p.1 = k) = true := by
        simpa [List.any_cons, hp] using h
      simpa [lookup, hp] using ih h'

theorem lookup_map_replace_ne {α : Type} (r : List (String × α))
    (k : String) (v : α) (k' : String) (h : ¬ k = k') :
    lookup (r.map (fun p => if p.1 = k then (k, v) else p)) k'
      = lookup r k' := by
  induction r with
  | nil => rfl
  | cons p rest ih =>
    have hk' : ¬ k' = k := fun hk => h hk.symm
    by_cases hp : p.1 = k
    · have hpk : ¬ p.1 = k' := by
        rw [hp]
        exact h
      simp [lookup, hp, hpk, h, ih]
    · by_cases hp' : p.1 = k' <;> simp [lookup, hp, hp', hk', ih]

theorem any_key_map_replace {α : Type} (r : List (String × α)) (k : String)
    (v : α) :
    ((r.map (fun p => if p.1 = k then (k, v) else p)).any
        (fun p => p.1 = k))
      = r.any (fun p => p.1 = k) := by
  induction r with
  | nil => rfl
  | cons p rest ih => by_cases hp : p.1 = k <;> simp [hp, ih]

theorem map_replace_of_no_key {α : Type} (r : List (String × α)) (k : String)
    (v : α) (h : r.any (fun p => p.1 = k) = false) :
    r.map (fun p => if p.1 = k then (k, v) else p) = r := by
  induction r with
  | nil => rfl
  | cons p rest ih =>
    have hp : ¬ p.1 = k := by
      intro hk
      simp [List.any_cons, hk] at h
    have h' : rest.any (fun p => p.1 = k) = false := by
      simpa [List.any_cons, hp] using h
    simp [hp, ih h']

theorem lookup_append_single_self {α : Type} (r : List (String × α))
    (k : String) (v : α) (h : r.any (fun p => p.1 = k) = false) :
    lookup (r ++ [(k, v)]) k = some v := by
  induction r with
  | nil => simp [lookup]
  | cons p rest ih =>
    have hp : ¬ p.1 = k := by
      intro hk
      simp [List.any_cons, hk] at h
    have h' : rest.any (fun p => p.1 = k) = false := by
      simpa [List.any_cons, hp] using h
    simpa [lookup, hp] using ih h'

theorem lookup_setKey_self {α : Type} (r : List (String × α)) (k : String)
    (v : α) : lookup (setKey r k v) k = some v := by
  unfold setKey
  by_cases h : r.any (fun p => p.1 = k) = true
  · rw [if_pos h]
    exact lookup_map_replace_self r k v h
  · rw [if_neg h]
    have hall : r.any (fun p => p.1 = k) = false := by
      cases hx : r.any (fun p => p.1 = k) with
      | false => rfl
      | true => exact absurd hx h
    exact lookup_append_single_self r k v hall

theorem lookup_setKey_ne {α : Type} (r : List (String × α)) (k : String)
    (v : α) (k' : String) (h : ¬ k' = k) :
    lookup (setKey r k v) k' = lookup r k' := by
  have hk : ¬ k = k' := fun hk => h hk.symm
  unfold setKey
  by_cases hany : r.any (fun p => p.1 = k) = true
  · rw [if_pos hany]
    exact lookup_map_replace_ne r k v k' hk
  · rw [if_neg hany]
    exact lookup_append_single_ne r k k' v hk

theorem setKey_setKey_same {α : Type} (r : List (String × α)) (k : String)
    (v1 v2 : α) : setKey (setKey r k v1) k v2 = setKey r k v2 := by
  by_cases hany : r.any (fun p => p.1 = k) = true
  · have h1 : setKey r k v1
        = r.map (fun p => if p.1 = k then (k, v1) else p) := by
      unfold setKey
      rw [if_pos hany]
    have hany' :
        ((r.map (fun p => if p.1 = k then (k, v1) else p)).any
          (fun p => p.1 = k)) = true := by
      rw [any_key_map_replace]
      exact hany
    rw [h1]
    unfold setKey
    rw [if_pos hany', if_pos hany, List.map_map]
    apply List.map_congr_left
    intro p _
    by_cases hp : p.1 = k <;> simp [hp]
  · have hno : r.any (fun p => p.1 = k) = false := by
      cases hx : r.any (fun p => p.1 = k) with
      | false => rfl
      | true => exact absurd hx hany
    have h1 : setKey r k v1 = r ++ [(k, v1)] := by
      unfold setKey
      rw [if_neg hany]
    have hany' : ((r ++ [(k, v1)]).any (fun p => p.1 = k)) = true := by
      simp
    rw [h1]
    unfold setKey
    rw [if_pos hany', if_neg hany]
    simp [map_replace_of_no_key r k v2 hno]

theorem total_congr_flags (cal : Option CalculatorData) (s1 s2 : SelState)
    (hdv : s1.dropdownValues = s2.dropdownValues)
    (hfl : ∀ k, getFlag s1.checked k = getFlag s2.checked k) :
    total cal s1 = total cal s2 := by
  rw [total_eq_spec, total_eq_spec, hdv]
  congr 1
  unfold specFlagSum
  congr 1
  apply List.map_congr_left
  intro f _
  by_cases hf : isFlagField f = true
  · simp only [hf, if_true]
    unfold specFieldFlagSum
    congr 1
    apply List.map_congr_left
    intro o _
    rw [hfl]
  · simp [hf]

theorem toNum_of_parse (s : String) (n : Int) (h : jsNumber s = some n) :
    toNum (some s) = n := by
  unfold toNum numOr0
  by_cases hs : s = ""
  · subst hs
    have h0 : jsNumber "" = some 0 := rfl
    rw [h0] at h
    have hn : (0 : Int) = n := by injection h
    simp [jsOr0, ← hn]
  · simp [hs, h, jsOr0]

theorem toNum_of_nan (s : String) (h : jsNumber s = none) :
    toNum (some s) = 0 := by
  unfold toNum numOr0
  by_cases hs : s = ""
  · subst hs
    have h0 : jsNumber "" = some 0 := rfl
    rw [h0] at h
    exact absurd h (by simp)
  · simp [hs, h, jsOr0]

theorem totalOld_inner_foldl (checked : List (String × Bool))
    (al : Option String) (opts : List CalcOption) (a : Int)
    (h : ∀ o ∈ opts, getFlag checked (flagKey al o.optionText) = true →
      numOr0 (some o.optionValue) ≠ none) :
    opts.foldl
      (fun acc o =>
        if getFlag checked (flagKey al o.optionText) then
          jsAdd acc (numOr0 (some o.optionValue))
        else acc)
      (some a)
      = some (opts.foldl
          (fun acc o =>
            if getFlag checked (flagKey al o.optionText) then
              acc + toNum (some o.optionValue)
            else acc)
          a) := by
  induction opts generalizing a with
  | nil => rfl
  | cons o os ih =>
    simp only [List.foldl]
    by_cases hf : getFlag checked (flagKey al o.optionText) = true
    · have hne := h o (List.mem_cons_self o os) hf
      obtain ⟨m, hm⟩ : ∃ m, numOr0 (some o.optionValue) = some m := by
        cases hx : numOr0 (some o.optionValue) with
        | none => exact absurd hx hne
        | some m => exact ⟨m, rfl⟩
      have htn : toNum (some o.optionValue) = m := by
        simp [toNum, hm, jsOr0]
      rw [if_pos hf, if_pos hf, hm, htn]
      have hadd : jsAdd (some a) (some m) = some (a + m) := rfl
      rw [hadd]
      exact ih (a + m) (fun o' ho' => h o' (List.mem_cons_of_mem o ho'))
    · rw [if_neg hf, if_neg hf]
      exact ih a (fun o' ho' => h o' (List.mem_cons_of_mem o ho'))

theorem totalOld_outer_foldl (checked : List (String × Bool))
    (fields : List Field) (a : Int)
    (h : ∀ f ∈ fields, isFlagField f = true →
      ∀ o ∈ f.options.getD [],
        getFlag checked (flagKey f.alias_ o.optionText) = true →
        numOr0 (some o.optionValue) ≠ none) :
    fields.foldl
      (fun sum f =>
        if (f.type == FieldType.toggle || f.type == FieldType.checkbox)
            && f.options.isSome then
          (f.options.getD []).foldl
            (fun acc o =>
              if getFlag checked (flagKey f.alias_ o.optionText) then
                jsAdd acc (numOr0 (some o.optionValue))
              else acc)
            sum
        else sum)
      (some a)
      = some (fields.foldl
          (fun sum f =>
            if (f.type == FieldType.toggle || f.type == FieldType.checkbox)
                && f.options.isSome then
              (f.options.getD []).foldl
                (fun acc o =>
                  if getFlag checked (flagKey f.alias_ o.optionText) then
                    acc + toNum (some o.optionValue)
                  else acc)
                sum
            else sum)
          a) := by
  induction fields generalizing a with
  | nil => rfl
  | cons f fs ih =>
    simp only [List.foldl]
    by_cases hc :
        ((f.type == FieldType.toggle || f.type == FieldType.checkbox)
          && f.options.isSome) = true
    · have hflag : isFlagField f = true := by
        have := (Bool.and_eq_true _ _).mp hc
        simpa [isFlagField] using this.1
      rw [if_pos hc, if_pos hc,
        totalOld_inner_foldl checked f.alias_ (f.options.getD []) a
          (h f (List.mem_cons_self f fs) hflag)]
      exact ih _ (fun f' hf' => h f' (List.mem_cons_of_mem f hf'))
    · rw [if_neg hc, if_neg hc]
      exact ih a (fun f' hf' => h f' (List.mem_cons_of_mem f hf'))

theorem totalOld_eq_some_total (cal : Option CalculatorData) (s : SelState)
    (h : ∀ f ∈ fieldsOf cal, isFlagField f = true →
      ∀ o ∈ f.options.getD [],
        getFlag s.checked (flagKey f.alias_ o.optionText) = true →
        numOr0 (some o.optionValue) ≠ none) :
    totalOld cal s = some (total cal s) := by
  show
    (fieldsOf cal).foldl _
      (some (s.dropdownValues.foldl (fun sum p => sum + jsOr0 p.2) 0))
      = some ((fieldsOf cal).foldl _
          (s.dropdownValues.foldl (fun sum p => sum + jsOr0 p.2) 0))
  exact totalOld_outer_foldl s.checked (fieldsOf cal) _ h

/-! ## Concrete fixtures (the configuration of the spec's §8 scenario) -/

def travelField : Field :=
  { _id := 1, type := FieldType.dropDown, label := "Travel",
    alias_ := some "travel",
    options := some [⟨"Economy", "0", none⟩, ⟨"Business", "500", none⟩] }

def extrasField : Field :=
  { _id := 2, type := FieldType.checkbox, label := "Extras",
    alias_ := some "insurance",
    options := some [⟨"Insurance", "75", none⟩] }

def demoCal : Option CalculatorData :=
  some ⟨"Custom Quote", some [travelField, extrasField]⟩

def emptyState : SelState := ⟨[], [], []⟩

def demoState : SelState :=
  ⟨[("travel", some 500)], [("travel", "Business")], []⟩

def oneCheckField (v : String) : Field :=
  { _id := 0, type := FieldType.checkbox, label := "L", alias_ := some "a",
    options := some [⟨"X", v, none⟩] }

def oneCheckCal (v : String) : Option CalculatorData :=
  some ⟨"C", some [oneCheckField v]⟩

def oneCheckFlagged : SelState :=
  ⟨[], [], [(flagKey (some "a") "X", true)]⟩

/-! ## Claim theorems -/

/-- C1: For every schema and selection state, the component's `total`
(`computeTotal`) equals the sum of all values in the `chosenValue`
(dropdown) mapping plus, for every Toggle/Checkbox field and every option
of that field whose flag is set, the parsed amount of that option's
`optionValue`; and the result is unchanged under any permutation of the
schema's field list. -/
theorem computeTotal_spec (cal : Option CalculatorData) (s : SelState)
    (name : String) (fs1 fs2 : List Field) (hperm : fs1.Perm fs2) :
    total cal s
      = specDropdownSum s.dropdownValues
        + specFlagSum (fieldsOf cal) s.checked
    ∧ total (some ⟨name, some fs1⟩) s = total (some ⟨name, some fs2⟩) s := by
  refine ⟨total_eq_spec cal s, ?_⟩
  rw [total_eq_spec, total_eq_spec]
  have hsum : specFlagSum fs1 s.checked = specFlagSum fs2 s.checked := by
    unfold specFlagSum
    exact List.Perm.sum_eq (hperm.map _)
  have hf1 : fieldsOf (some ⟨name, some fs1⟩) = fs1 := rfl
  have hf2 : fieldsOf (some ⟨name, some fs2⟩) = fs2 := rfl
  rw [hf1, hf2, hsum]

theorem computeTotal_spec_witness :
    total demoCal demoState
      = specDropdownSum demoState.dropdownValues
        + specFlagSum (fieldsOf demoCal) demoState.checked
    ∧ total (some ⟨"Custom Quote", some [travelField, extrasField]⟩) demoState
      = total (some ⟨"Custom Quote", some [extrasField, travelField]⟩)
          demoState :=
  computeTotal_spec demoCal demoState "Custom Quote"
    [travelField, extrasField] [extrasField, travelField]
    (List.Perm.swap extrasField travelField [])

/-- C2: The export is rejected (a user-facing notice, no output file) if and
only if the built line-item sequence is empty and no entry of the
`chosenValue` (dropdown) mapping is strictly positive; with at least one
positive dropdown entry it proceeds regardless of the checkbox flags; a
rejected export produces no file; and the handler leaves the state
unchanged. -/
theorem export_guard (cal : Option CalculatorData) (s : SelState)
    (d : String) :
    ((handleDownloadPdf cal s d).isRejected = true ↔
      buildSelections cal s = []
        ∧ ∀ p ∈ s.dropdownValues, jsGtZero p.2 = false)
    ∧ ((∃ p ∈ s.dropdownValues, jsGtZero p.2 = true) →
        (handleDownloadPdf cal s d).isRejected = false)
    ∧ ((handleDownloadPdf cal s d).isRejected = true →
        (handleDownloadPdf cal s d).savedFile = none)
    ∧ (handleDownloadPdfSt cal s d).2 = s := by
  have hb : (handleDownloadPdf cal s d).isRejected
      = !(decide (0 < (buildSelections cal s).length)
          || s.dropdownValues.any (fun p => jsGtZero p.2)) := by
    unfold handleDownloadPdf
    cases hx : (decide (0 < (buildSelections cal s).length)
        || s.dropdownValues.any (fun p => jsGtZero p.2)) <;>
      simp [hx, ExportOutcome.isRejected]
  refine ⟨?_, ?_, ?_, rfl⟩
  · rw [hb]
    simp [List.length_eq_zero, List.any_eq_false]
  · rintro ⟨p, hp, hpos⟩
    rw [hb]
    have : s.dropdownValues.any (fun p => jsGtZero p.2) = true :=
      List.any_eq_true.mpr ⟨p, hp, hpos⟩
    simp [this]
  · intro h
    cases hx : handleDownloadPdf cal s d with
    | rejected n => rfl
    | saved fn rows t =>
      rw [hx] at h
      exact absurd h (by simp [ExportOutcome.isRejected])

theorem export_guard_witness :
    ((handleDownloadPdf demoCal demoState "2025-01-01").isRejected = true ↔
      buildSelections demoCal demoState = []
        ∧ ∀ p ∈ demoState.dropdownValues, jsGtZero p.2 = false)
    ∧ ((∃ p ∈ demoState.dropdownValues, jsGtZero p.2 = true) →
        (handleDownloadPdf demoCal demoState "2025-01-01").isRejected = false)
    ∧ ((handleDownloadPdf demoCal demoState "2025-01-01").isRejected = true →
        (handleDownloadPdf demoCal demoState "2025-01-01").savedFile = none)
    ∧ (handleDownloadPdfSt demoCal demoState "2025-01-01").2 = demoState :=
  export_guard demoCal demoState "2025-01-01"

/-- C3: `buildSelections` is the per-field dropdown contributions followed by
the per-field checkbox contributions, and a Dropdown field's contribution is
the single line item `{section: f.label, item: label, price: value}` exactly
when its selected value is non-zero and its selected label non-empty; a
selected value of exactly `0` yields no line item even when a label is
present. -/
theorem buildSelections_dropdown_iff (cal : Option CalculatorData)
    (s : SelState) :
    buildSelections cal s
      = (fieldsOf cal).flatMap (fun f => dropContrib f s)
        ++ (fieldsOf cal).flatMap (fun f => toggleContrib f s.checked)
    ∧ (∀ f : Field, f.type = FieldType.dropDown → ∀ (n : Int) (l : String),
        lookup s.dropdownValues (dropAlias f) = some (some n) →
        lookup s.dropdownLabels (dropAlias f) = some l →
        dropContrib f s
          = if n ≠ 0 ∧ l ≠ "" then [⟨f.label, l, n⟩] else [])
    ∧ (∀ f : Field, f.type = FieldType.dropDown →
        lookup s.dropdownValues (dropAlias f) = some (some 0) →
        dropContrib f s = [])
    ∧ (∀ f : Field, f.type = FieldType.dropDown →
        (lookup s.dropdownValues (dropAlias f) = none
          ∨ lookup s.dropdownLabels (dropAlias f) = none) →
        dropContrib f s = []) := by
  refine ⟨buildSelections_eq_flatMap cal s, ?_, ?_, ?_⟩
  · intro f hf n l hv hl
    have hbeq : (f.type == FieldType.dropDown) = true := by
      rw [hf]
      rfl
    by_cases h1 : n = 0 <;> by_cases h2 : l = "" <;>
      simp [dropContrib, hbeq, hv, hl, truthyNum, truthyStr, forceNum,
        jsOr0, h1, h2]
  · intro f hf hv
    have hbeq : (f.type == FieldType.dropDown) = true := by
      rw [hf]
      rfl
    simp [dropContrib, hbeq, hv, truthyNum]
  · intro f hf h
    have hbeq : (f.type == FieldType.dropDown) = true := by
      rw [hf]
      rfl
    rcases h with h | h
    · simp [dropContrib, hbeq, h, truthyNum]
    · simp [dropContrib, hbeq, h, truthyStr]

theorem buildSelections_dropdown_iff_witness :
    dropContrib travelField demoState
      = if (500 : Int) ≠ 0 ∧ "Business" ≠ "" then
          [⟨travelField.label, "Business", 500⟩]
        else [] :=
  (buildSelections_dropdown_iff demoCal demoState).2.1 travelField rfl
    500 "Business" rfl rfl

/-- C4: `toNum` (`parseAmount`) yields 0 on an absent string and on a string
that fails to parse (e.g. "abc"), is total (never raises), and is not
clamped at zero: a parsed value — negative included — is returned as-is, so
on a one-checkbox schema with the flag set it is the whole total (0 without
the flag) and the emitted line item's price. -/
theorem parseAmount_spec (s : String) (n : Int) :
    toNum none = 0
    ∧ (jsNumber s = none → toNum (some s) = 0)
    ∧ toNum (some "abc") = 0
    ∧ (jsNumber s = some n → toNum (some s) = n)
    ∧ (jsNumber s = some n →
        total (oneCheckCal s) oneCheckFlagged = n
        ∧ total (oneCheckCal s) emptyState = 0
        ∧ buildSelections (oneCheckCal s) oneCheckFlagged = [⟨"L", "X", n⟩]) := by
  refine ⟨rfl, toNum_of_nan s, rfl, toNum_of_parse s n, ?_⟩
  intro h
  have htn : toNum (some s) = n := toNum_of_parse s n h
  have hb1 : (FieldType.checkbox == FieldType.toggle) = false := rfl
  have hb2 : (FieldType.checkbox == FieldType.checkbox) = true := rfl
  have hb3 : (FieldType.checkbox == FieldType.dropDown) = false := rfl
  refine ⟨?_, ?_, ?_⟩
  · rw [total_eq_spec]
    simp [specDropdownSum, specFlagSum, specFieldFlagSum, oneCheckCal,
      oneCheckField, oneCheckFlagged, fieldsOf, isFlagField, getFlag,
      lookup, hb1, hb2, hb3, htn]
  · rw [total_eq_spec]
    simp [specDropdownSum, specFlagSum, specFieldFlagSum, oneCheckCal,
      oneCheckField, emptyState, fieldsOf, isFlagField, getFlag, lookup,
      hb1, hb2, hb3]
  · rw [buildSelections_eq_flatMap]
    simp [dropContrib, toggleContrib, oneCheckCal, oneCheckField,
      oneCheckFlagged, fieldsOf, getFlag, lookup, hb1, hb2, hb3, htn]

theorem parseAmount_spec_witness :
    toNum none = 0
    ∧ (jsNumber "-75" = none → toNum (some "-75") = 0)
    ∧ toNum (some "abc") = 0
    ∧ (jsNumber "-75" = some (-75) → toNum (some "-75") = -75)
    ∧ (jsNumber "-75" = some (-75) →
        total (oneCheckCal "-75") oneCheckFlagged = -75
        ∧ total (oneCheckCal "-75") emptyState = 0
        ∧ buildSelections (oneCheckCal "-75") oneCheckFlagged
            = [⟨"L", "X", -75⟩]) :=
  parseAmount_spec "-75" (-75)

/-- C5: A second Dropdown selection on the same field fully replaces the
first — the resulting state (hence the total) is the one the second
selection alone would produce — and the stored label is the `optionText` of
the option whose `optionValue` string equals the chosen raw value, or `""`
when no option matches. -/
theorem dropdown_select_replaces (cal : Option CalculatorData)
    (f1 f2 : Field) (r1 r2 : String) (s : SelState)
    (halias : dropAlias f1 = dropAlias f2) :
    selectDropdown f2 r2 (selectDropdown f1 r1 s) = selectDropdown f2 r2 s
    ∧ lookup (selectDropdown f2 r2 s).dropdownValues (dropAlias f2)
        = some (numOr0 (some r2))
    ∧ lookup (selectDropdown f2 r2 s).dropdownLabels (dropAlias f2)
        = some (labelFor f2 r2)
    ∧ ((f2.options.getD []).find? (fun o => o.optionValue == r2) = none →
        labelFor f2 r2 = "")
    ∧ (∀ o,
        (f2.options.getD []).find? (fun o => o.optionValue == r2) = some o →
        labelFor f2 r2 = o.optionText)
    ∧ total cal (selectDropdown f2 r2 (selectDropdown f1 r1 s))
        = total cal (selectDropdown f2 r2 s) := by
  have h1 : selectDropdown f2 r2 (selectDropdown f1 r1 s)
      = selectDropdown f2 r2 s := by
    unfold selectDropdown
    simp [halias, setKey_setKey_same]
  refine ⟨h1, ?_, ?_, ?_, ?_, by rw [h1]⟩
  · exact lookup_setKey_self s.dropdownValues (dropAlias f2) (numOr0 (some r2))
  · exact lookup_setKey_self s.dropdownLabels (dropAlias f2) (labelFor f2 r2)
  · intro hnone
    simp [labelFor, hnone]
  · intro o ho
    by_cases he : o.optionText = "" <;> simp [labelFor, ho, he]

theorem dropdown_select_replaces_witness :
    selectDropdown travelField "500" (selectDropdown travelField "0" emptyState)
      = selectDropdown travelField "500" emptyState
    ∧ lookup (selectDropdown travelField "500" emptyState).dropdownValues
        (dropAlias travelField) = some (numOr0 (some "500"))
    ∧ lookup (selectDropdown travelField "500" emptyState).dropdownLabels
        (dropAlias travelField) = some (labelFor travelField "500")
    ∧ ((travelField.options.getD []).find? (fun o => o.optionValue == "500")
          = none → labelFor travelField "500" = "")
    ∧ (∀ o, (travelField.options.getD []).find?
          (fun o => o.optionValue == "500") = some o →
        labelFor travelField "500" = o.optionText)
    ∧ total demoCal
        (selectDropdown travelField "500"
          (selectDropdown travelField "0" emptyState))
      = total demoCal (selectDropdown travelField "500" emptyState) :=
  dropdown_select_replaces demoCal travelField travelField "0" "500"
    emptyState rfl

/-- C6: Setting a Toggle/Checkbox flag that is currently clear and then
clearing it again returns the computed total exactly to its prior value. -/
theorem toggle_on_off_total (cal : Option CalculatorData) (s : SelState)
    (a : Option String) (t : String)
    (h : getFlag s.checked (flagKey a t) = false) :
    total cal (setFlag a t false (setFlag a t true s)) = total cal s := by
  apply total_congr_flags
  · rfl
  · intro k
    by_cases hk : k = flagKey a t
    · show (lookup (setKey (setKey s.checked (flagKey a t) true)
          (flagKey a t) false) k).getD false
        = getFlag s.checked k
      rw [hk, lookup_setKey_self, h]
      rfl
    · show (lookup (setKey (setKey s.checked (flagKey a t) true)
          (flagKey a t) false) k).getD false
        = (lookup s.checked k).getD false
      rw [lookup_setKey_ne _ _ _ _ hk, lookup_setKey_ne _ _ _ _ hk]

theorem toggle_on_off_total_witness :
    total demoCal
      (setFlag (some "insurance") "Insurance" false
        (setFlag (some "insurance") "Insurance" true demoState))
      = total demoCal demoState :=
  toggle_on_off_total demoCal demoState (some "insurance") "Insurance" rfl

/-- C7: Toggling one Toggle/Checkbox option only touches the `chosenFlags`
entry at its own key: the dropdown value and label mappings are unchanged,
and the flag mapping is unchanged at every other key. -/
theorem toggle_frame (s : SelState) (a : Option String) (t : String)
    (b : Bool) :
    (setFlag a t b s).dropdownValues = s.dropdownValues
    ∧ (setFlag a t b s).dropdownLabels = s.dropdownLabels
    ∧ ∀ k, ¬ k = flagKey a t →
        lookup (setFlag a t b s).checked k = lookup s.checked k :=
  ⟨rfl, rfl, fun k hk => lookup_setKey_ne s.checked (flagKey a t) b k hk⟩

theorem toggle_frame_witness :
    (setFlag (some "insurance") "Insurance" true demoState).dropdownValues
      = demoState.dropdownValues
    ∧ (setFlag (some "insurance") "Insurance" true demoState).dropdownLabels
      = demoState.dropdownLabels
    ∧ lookup (setFlag (some "insurance") "Insurance" true
          demoState).checked "travel:Economy"
      = lookup demoState.checked "travel:Economy" := by
  have h := toggle_frame demoState (some "insurance") "Insurance" true
  exact ⟨h.1, h.2.1, h.2.2 "travel:Economy" (by decide)⟩

/-- C8: Loading is total (this Lean function never raises by construction);
when the root has no `calculators` sequence, or the first calculator lacks a
`ccb_fields` sequence, the effective load yields the absent sentinel and the
component renders the degraded "no calculator" view, which offers no
interactive control and no export action. -/
theorem load_degraded (root : CcbRoot)
    (h : root.calculators = none
      ∨ ∃ c cs, root.calculators = some (c :: cs) ∧ c.ccb_fields = none) :
    load root = none
    ∧ render (loadCalculator root) = View.noCalculator
    ∧ (render (loadCalculator root)).interactiveControls = []
    ∧ (render (loadCalculator root)).canExport = false := by
  have hrender : render (loadCalculator root) = View.noCalculator := by
    rcases h with h | ⟨c, cs, hc, hf⟩
    · simp [loadCalculator, h, render]
    · simp [loadCalculator, hc, render, hf]
  have hload : load root = none := by
    rcases h with h | ⟨c, cs, hc, hf⟩
    · simp [load, loadCalculator, h]
    · simp [load, loadCalculator, hc, hf]
  refine ⟨hload, hrender, ?_, ?_⟩
  · rw [hrender]
    rfl
  · rw [hrender]
    rfl

theorem load_degraded_witness :
    load ⟨none⟩ = none
    ∧ render (loadCalculator ⟨none⟩) = View.noCalculator
    ∧ (render (loadCalculator ⟨none⟩)).interactiveControls = []
    ∧ (render (loadCalculator ⟨none⟩)).canExport = false :=
  load_degraded ⟨none⟩ (Or.inl rfl)

/-- C9 counterexample: on a schema with one Checkbox whose option value is
the unparsable "abc" and that flag set, the older variant's total is `NaN`
while the current variant's total is `0` — the two variants are not
equivalent as claimed. -/
theorem variant_totals_differ :
    totalOld (oneCheckCal "abc") oneCheckFlagged = none
    ∧ total (oneCheckCal "abc") oneCheckFlagged = 0
    ∧ totalOld (oneCheckCal "abc") oneCheckFlagged
        ≠ some (total (oneCheckCal "abc") oneCheckFlagged) := by
  refine ⟨rfl, rfl, ?_⟩
  intro hcontra
  have h1 : totalOld (oneCheckCal "abc") oneCheckFlagged = none := rfl
  rw [h1] at hcontra
  exact Option.noConfusion hcontra

/-- C9 (amended): the two variants' totals agree whenever every flagged
Toggle/Checkbox option's `optionValue` actually parses as a number (i.e.
`Number(optionValue || 0)` is not `NaN`); when a flagged option's value
fails to parse the older variant yields `NaN` instead. -/
theorem totalOld_refines_total (cal : Option CalculatorData) (s : SelState)
    (h : ∀ f ∈ fieldsOf cal, isFlagField f = true →
      ∀ o ∈ f.options.getD [],
        getFlag s.checked (flagKey f.alias_ o.optionText) = true →
        numOr0 (some o.optionValue) ≠ none) :
    totalOld cal s = some (total cal s) :=
  totalOld_eq_some_total cal s h

theorem totalOld_refines_total_witness :
    totalOld (oneCheckCal "75") oneCheckFlagged
      = some (total (oneCheckCal "75") oneCheckFlagged) :=
  totalOld_refines_total (oneCheckCal "75") oneCheckFlagged (by decide)

/-- C10: Checkbox state is keyed only by the `alias:optionText` string, not
by field identity: with two Toggle/Checkbox fields of equal alias each
declaring an option of the same `optionText`, the single flag written by one
toggle from the empty state makes both options' parsed amounts enter the
total, and `buildSelections` emits one line item per field. -/
theorem shared_flag_key (a : Option String) (t v1 v2 l1 l2 nm : String)
    (i1 i2 : Int) :
    total
        (some ⟨nm, some
          [⟨i1, FieldType.checkbox, l1, none, a, some [⟨t, v1, none⟩]⟩,
           ⟨i2, FieldType.toggle, l2, none, a, some [⟨t, v2, none⟩]⟩]⟩)
        ⟨[], [], [(flagKey a t, true)]⟩
      = toNum (some v1) + toNum (some v2)
    ∧ buildSelections
        (some ⟨nm, some
          [⟨i1, FieldType.checkbox, l1, none, a, some [⟨t, v1, none⟩]⟩,
           ⟨i2, FieldType.toggle, l2, none, a, some [⟨t, v2, none⟩]⟩]⟩)
        ⟨[], [], [(flagKey a t, true)]⟩
      = [⟨l1, t, toNum (some v1)⟩, ⟨l2, t, toNum (some v2)⟩]
    ∧ (⟨[], [], [(flagKey a t, true)]⟩ : SelState)
        = setFlag a t true ⟨[], [], []⟩ := by
  have hb1 : (FieldType.checkbox == FieldType.toggle) = false := rfl
  have hb2 : (FieldType.checkbox == FieldType.checkbox) = true := rfl
  have hb3 : (FieldType.checkbox == FieldType.dropDown) = false := rfl
  have hb4 : (FieldType.toggle == FieldType.toggle) = true := rfl
  have hb5 : (FieldType.toggle == FieldType.dropDown) = false := rfl
  refine ⟨?_, ?_, ?_⟩
  · rw [total_eq_spec]
    simp [specDropdownSum, specFlagSum, specFieldFlagSum, fieldsOf,
      isFlagField, getFlag, lookup, hb1, hb2, hb3, hb4, hb5]
  · rw [buildSelections_eq_flatMap]
    simp [dropContrib, toggleContrib, fieldsOf, getFlag, lookup,
      hb1, hb2, hb3, hb4, hb5]
  · simp [setFlag, setKey]

end Ccb
